import Mathlib

/-!
Shallow embedding of the audioscribe repository's verification core
(src/audioscribe/core/verify_audio.py, src/audioscribe/core/models.py),
the job placeholder store (src/audioscribe/core/jobs.py) and the CLI
verify command (src/audioscribe/cli.py), with theorems settling the
spec claims about them.

Python floats are modelled as rationals, Python ints as Lean Int,
JSON scalar values reaching the metric-extraction code as `PyVal`.
A Python exception escaping `verify_audio` is modelled as
`Except.error`; a normal return is `Except.ok`.
-/

namespace Audioscribe

/-- Embeds `VerificationStatus` from models.py: OK = "ok",
WARNING = "warning", FAILED = "failed". -/
inductive VerificationStatus where
  | ok
  | warning
  | failed
deriving DecidableEq, Repr

/-- Embeds the frozen dataclass `VerificationMetrics` from models.py;
every field is optional and defaults to None. -/
structure VerificationMetrics where
  duration_s : Option ℚ := none
  file_size_bytes : Option ℤ := none
  bitrate_kbps : Option ℤ := none
  sample_rate_hz : Option ℤ := none
  channels : Option ℤ := none
  codec : Option String := none
deriving DecidableEq, Repr

/-- Embeds the frozen dataclass `VerificationResult` from models.py:
metrics defaults to an all-None `VerificationMetrics`, warnings and
errors default to empty lists. -/
structure VerificationResult where
  status : VerificationStatus
  metrics : VerificationMetrics := {}
  warnings : List String := []
  errors : List String := []
deriving DecidableEq, Repr

/-- Embeds the `ok` property of `VerificationResult`:
`self.status == VerificationStatus.OK`. -/
def VerificationResult.ok (r : VerificationResult) : Bool :=
  r.status = VerificationStatus.ok

/-- A JSON scalar value as the Python code sees it after `json.loads`:
a string or a number (Python ints and floats both as ℚ). -/
inductive PyVal where
  | vStr (s : String)
  | vNum (q : ℚ)
deriving DecidableEq, Repr

/-- Python truthiness of `d.get(key)` for an optional JSON scalar:
missing keys give None (falsy); "" and 0 are falsy; everything else
is truthy. -/
def truthyOpt : Option PyVal → Bool
  | none => false
  | some (PyVal.vStr s) => s ≠ ""
  | some (PyVal.vNum q) => q ≠ 0

/-- Embeds Python `str.strip()`: drop leading and trailing
whitespace. Defined structurally on the character list so that it
evaluates by kernel reduction. -/
def pyStrip (s : String) : String :=
  String.mk (((s.data.dropWhile Char.isWhitespace).reverse.dropWhile
    Char.isWhitespace).reverse)

/-- Value of a decimal digit list, most significant digit first. -/
def digitsVal (cs : List Char) : ℕ :=
  cs.foldl (fun a c => a * 10 + (c.toNat - 48)) 0

/-- Embeds Python `float(s)` on the decimal forms ffprobe-style output
uses: optional surrounding whitespace, optional sign, digits with an
optional single decimal point (at least one digit overall); any other
string raises ValueError, modelled as `none`. -/
def pyFloatOfString (s : String) : Option ℚ :=
  let cs := (pyStrip s).toList
  let sign : ℚ := if cs.head? = some '-' then -1 else 1
  let cs := if cs.head? = some '-' ∨ cs.head? = some '+' then cs.tail else cs
  let ip := cs.takeWhile Char.isDigit
  let rest := cs.dropWhile Char.isDigit
  match rest with
  | [] => if ip.isEmpty then none else some (sign * (digitsVal ip : ℚ))
  | '.' :: rest2 =>
    let fp := rest2.takeWhile Char.isDigit
    let rest3 := rest2.dropWhile Char.isDigit
    if rest3.isEmpty ∧ ¬(ip.isEmpty ∧ fp.isEmpty) then
      some (sign * ((digitsVal ip : ℚ) + (digitsVal fp : ℚ) / (10 : ℚ) ^ fp.length))
    else none
  | _ => none

/-- Embeds Python `int(s)` on strings: optional surrounding
whitespace, optional sign, then decimal digits only; anything else
(including a decimal point) raises ValueError, modelled as `none`. -/
def pyIntOfString (s : String) : Option ℤ :=
  let cs := (pyStrip s).toList
  let sign : ℤ := if cs.head? = some '-' then -1 else 1
  let cs := if cs.head? = some '-' ∨ cs.head? = some '+' then cs.tail else cs
  if ¬cs.isEmpty ∧ cs.all Char.isDigit then some (sign * (digitsVal cs : ℤ)) else none

/-- Truncation of a rational toward zero, the behaviour of Python
`int` applied to a float. -/
def ratTrunc (q : ℚ) : ℤ :=
  if 0 ≤ q then ⌊q⌋ else -⌊-q⌋

/-- Embeds Python `float(v)` on a JSON scalar: numbers pass through,
strings are parsed (or raise, modelled as `none`). -/
def pyFloat : PyVal → Option ℚ
  | PyVal.vStr s => pyFloatOfString s
  | PyVal.vNum q => some q

/-- Embeds Python `int(v)` on a JSON scalar: numbers truncate toward
zero, strings are parsed (or raise, modelled as `none`). -/
def pyInt : PyVal → Option ℤ
  | PyVal.vStr s => pyIntOfString s
  | PyVal.vNum q => some (ratTrunc q)

/-- The container-level object of the probe output (`data["format"]`),
with the three keys verify_audio reads. -/
structure FormatInfo where
  duration : Option PyVal := none
  bit_rate : Option PyVal := none
  size : Option PyVal := none
deriving DecidableEq, Repr

/-- One entry of `data["streams"]`, with the keys verify_audio
reads. -/
structure StreamInfo where
  codec_type : Option PyVal := none
  sample_rate : Option PyVal := none
  channels : Option PyVal := none
  codec_name : Option String := none
deriving DecidableEq, Repr

/-- Embeds `next((s for s in streams if s.get("codec_type") ==
"audio"), {})`: the first audio stream, or an empty dict. -/
def audioStream (streams : List StreamInfo) : StreamInfo :=
  (streams.find? fun s => s.codec_type = some (PyVal.vStr "audio")).getD {}

/-- Embeds the pattern `conv(d.get(key, 0)) if d.get(key) else None`:
when the value is truthy it is converted (a failing conversion raises,
modelled as `Except.error`), otherwise the field is None. -/
def convField {α : Type} (conv : PyVal → Option α) (v : Option PyVal)
    (errMsg : String) : Except String (Option α) :=
  if truthyOpt v then
    match v with
    | some pv =>
      match conv pv with
      | some a => Except.ok (some a)
      | none => Except.error errMsg
    | none => Except.ok none
  else Except.ok none

/-- Embeds verify_audio lines 60-81: build `VerificationMetrics` from
the parsed probe JSON, in the source's evaluation order; a failing
`float`/`int` conversion propagates as an exception. -/
def extractMetrics (fmt : FormatInfo) (streams : List StreamInfo) :
    Except String VerificationMetrics := do
  let ast := audioStream streams
  let duration ← convField pyFloat fmt.duration
    "ValueError: could not convert string to float"
  let bitrate0 ← convField pyInt fmt.bit_rate
    "ValueError: invalid literal for int"
  let bitrate := bitrate0.map fun n => Int.fdiv n 1000
  let sample_rate ← convField pyInt ast.sample_rate
    "ValueError: invalid literal for int"
  let channels ← convField pyInt ast.channels
    "ValueError: invalid literal for int"
  let codec := ast.codec_name
  let size ← convField pyInt fmt.size
    "ValueError: invalid literal for int"
  Except.ok
    { duration_s := duration
      bitrate_kbps := bitrate
      sample_rate_hz := sample_rate
      channels := channels
      codec := codec
      file_size_bytes := size }

/-- Round a rational to the nearest integer, ties to even — the
rounding Python's fixed-point float formatting performs. -/
def roundHalfEven (q : ℚ) : ℤ :=
  let f := ⌊q⌋
  let r := q - (f : ℚ)
  if r < 1 / 2 then f
  else if 1 / 2 < r then f + 1
  else if f % 2 = 0 then f else f + 1

/-- The two-character decimal rendering of `k` (intended for
`k < 100`): tens digit then units digit. -/
def twoDigits (k : ℕ) : String :=
  String.mk [Nat.digitChar (k / 10), Nat.digitChar (k % 10)]

/-- The integer `n` with `fmt2 d = sign ++ toString (n / 100) ++ "."
++ twoDigits (n % 100)`: `|d| * 100` rounded half-to-even. -/
def fmt2Scaled (d : ℚ) : ℕ :=
  (roundHalfEven (|d| * 100)).toNat

/-- The part of the `.2f` rendering before the decimal point: the
sign and the integer part. -/
def fmt2Pre (d : ℚ) : String :=
  (if d < 0 then "-" else "") ++ toString (fmt2Scaled d / 100)

/-- Embeds the Python format specifier `.2f` applied to `d`: the
value rounded to two decimal places, always printing exactly two
digits after the decimal point. -/
def fmt2 (d : ℚ) : String :=
  fmt2Pre d ++ "." ++ twoDigits (fmt2Scaled d % 100)

/-- Embeds Rule A1 (verify_audio lines 87-91): the errors the
duration rule appends. -/
def ruleErrors (duration : Option ℚ) : List String :=
  match duration with
  | none => ["Invalid or zero duration"]
  | some d =>
    if d ≤ 0 then ["Invalid or zero duration"]
    else if d < 5 then ["Duration too short: " ++ fmt2 d ++ "s < 5.00s"]
    else []

/-- Embeds Rule A2 (verify_audio lines 93-95): the warnings the
bitrate rule appends. -/
def ruleWarnings (bitrate : Option ℤ) : List String :=
  match bitrate with
  | none => []
  | some b =>
    if b < 96 then ["Low bitrate: " ++ toString b ++ " kbps < 96 kbps"]
    else []

/-- Embeds verify_audio lines 97-103: `if errors: FAILED elif
warnings: WARNING else OK`. -/
def decideStatus (errors warnings : List String) : VerificationStatus :=
  if ¬errors.isEmpty then VerificationStatus.failed
  else if ¬warnings.isEmpty then VerificationStatus.warning
  else VerificationStatus.ok

/-- Embeds verify_audio lines 83-110: rule evaluation and result
construction from the extracted metrics. -/
def evaluate (m : VerificationMetrics) : VerificationResult :=
  let warnings := ruleWarnings m.bitrate_kbps
  let errors := ruleErrors m.duration_s
  { status := decideStatus errors warnings
    metrics := m
    warnings := warnings
    errors := errors }

/-- The ways the extraction phase of verify_audio can resolve: the
file-existence check, the ffprobe subprocess call, its exit code,
JSON parsing, and finally a parsed JSON document (format object plus
stream list). -/
inductive ProbeOutcome where
  | fileNotFound (path : String)
  | execFailed (exnRepr : String)
  | nonZeroExit (stderr : String)
  | invalidJson
  | parsed (fmt : FormatInfo) (streams : List StreamInfo)
deriving DecidableEq, Repr

/-- Embeds `verify_audio` from verify_audio.py over the resolved
probe outcome: each extraction-failure branch returns a FAILED result
with one error and default metrics; the parsed branch extracts
metrics (a conversion exception propagates) and evaluates the
rules. -/
def verify_audio : ProbeOutcome → Except String VerificationResult
  | ProbeOutcome.fileNotFound p =>
    Except.ok { status := VerificationStatus.failed
                errors := ["File not found: " ++ p] }
  | ProbeOutcome.execFailed e =>
    Except.ok { status := VerificationStatus.failed
                errors := ["ffprobe execution failed: " ++ e] }
  | ProbeOutcome.nonZeroExit stderr =>
    Except.ok { status := VerificationStatus.failed
                errors := [if pyStrip stderr = "" then "ffprobe returned error"
                           else pyStrip stderr] }
  | ProbeOutcome.invalidJson =>
    Except.ok { status := VerificationStatus.failed
                errors := ["Invalid JSON returned from ffprobe"] }
  | ProbeOutcome.parsed fmt streams =>
    match extractMetrics fmt streams with
    | Except.error e => Except.error e
    | Except.ok m => Except.ok (evaluate m)

/-- Embeds the frozen dataclass `Job` from jobs.py. -/
structure Job where
  job_id : String
  urls : List String
deriving DecidableEq, Repr

/-- The in-memory `_JOBS` dict of jobs.py, modelled as an association
list with the most recent binding first. -/
def JobStore : Type := List (String × Job)

/-- Embeds `_JOBS.get(job_id)`. -/
def storeGet (store : JobStore) (job_id : String) : Option Job :=
  (List.find? (fun p => p.1 = job_id) store).map Prod.snd

/-- The dict returned by `create_job`, with its four keys. -/
structure CreateJobResult where
  ok : Bool
  message : String
  job_id : String
  count : ℕ
deriving DecidableEq, Repr

/-- Embeds the comprehension `[u.strip() for u in urls if
str(u).strip()]`: drop entries blank after stripping, strip the
rest. -/
def cleanUrls (urls : List String) : List String :=
  (urls.filter fun u => pyStrip u ≠ "").map pyStrip

/-- Embeds `create_job` from jobs.py; the uuid4-generated job id is a
parameter, and the updated `_JOBS` store is returned alongside the
result dict. -/
def create_job (store : JobStore) (job_id : String) (urls : List String) :
    JobStore × CreateJobResult :=
  let url_list := cleanUrls urls
  ((job_id, { job_id := job_id, urls := url_list }) :: store,
   { ok := true
     message := "job created (placeholder)"
     job_id := job_id
     count := url_list.length })

/-- The ok/message/job_id portion of the dict returned by
`process_job`. -/
structure ProcessResult where
  ok : Bool
  message : String
  job_id : String
deriving DecidableEq, Repr

/-- Embeds `process_job` from jobs.py up to its external effects: the
job lookup and the empty-urls check are from the source; the download
and verification path that follows (yt-dlp subprocess, filesystem) is
the caller-supplied `download`. -/
def process_job (store : JobStore) (download : Job → ProcessResult)
    (job_id : String) : ProcessResult :=
  match storeGet store job_id with
  | none => { ok := false, message := "job not found", job_id := job_id }
  | some job =>
    if job.urls.isEmpty then
      { ok := false, message := "no urls in job", job_id := job_id }
    else download job

/-- Embeds the `.value` serialization of `VerificationStatus` (via
`_to_jsonable` in cli.py, Enum → its string value). -/
def statusValue : VerificationStatus → String
  | VerificationStatus.ok => "ok"
  | VerificationStatus.warning => "warning"
  | VerificationStatus.failed => "failed"

/-- What the CLI `verify` command reports for one invocation: the
`ok` field of the printed JSON, its `message`, and the process exit
code. -/
structure CliVerifyOutcome where
  ok : Bool
  message : String
  exitCode : ℕ
deriving DecidableEq, Repr

/-- How the path handed to the CLI `verify` command resolves on the
filesystem: missing, existing but not a regular file, or an existing
regular file. -/
inductive PathKind where
  | missing
  | notFile
  | file
deriving DecidableEq, Repr

/-- Embeds the body of the CLI `verify` command (cli.py lines
168-205) after verify_audio returned `vr`: status string, `ok` flag,
message, and exit code. -/
def cliVerifyResult (vr : VerificationResult) (strict : Bool) :
    CliVerifyOutcome :=
  let status0 := statusValue vr.status
  let status := if status0 = "" then "failed" else status0
  let ok := (status == "ok") || (status == "warning" && !strict)
  let message :=
    if status = "ok" then "verification ok"
    else if status = "warning" then
      "verification warnings: " ++ toString vr.warnings.length
    else "verification failed: " ++ toString vr.errors.length
  let exitCode :=
    if status = "ok" then 0
    else if status = "warning" then (if strict then 1 else 2)
    else 1
  { ok := ok, message := message, exitCode := exitCode }

/-- Embeds the CLI `verify` command including its two path checks:
a missing path or a non-file path prints an error dict and exits 1
before verify_audio runs. -/
def cliVerify (kind : PathKind) (vr : VerificationResult)
    (strict : Bool) : CliVerifyOutcome :=
  match kind with
  | PathKind.missing =>
    { ok := false, message := "file does not exist", exitCode := 1 }
  | PathKind.notFile =>
    { ok := false, message := "path is not a file", exitCode := 1 }
  | PathKind.file => cliVerifyResult vr strict

/-- A well-formedness condition on one optional metric field: either
it is falsy (the code skips conversion) or its conversion
succeeds. -/
def fieldConvOk {α : Type} (conv : PyVal → Option α) (v : Option PyVal) : Bool :=
  !truthyOpt v ||
    (match v with
     | some pv => (conv pv).isSome
     | none => true)

/-- A probe outcome on which metric extraction performs no failing
numeric conversion: every truthy metric field converts. -/
def probeWellFormed : ProbeOutcome → Bool
  | ProbeOutcome.parsed fmt streams =>
    fieldConvOk pyFloat fmt.duration &&
    fieldConvOk pyInt fmt.bit_rate &&
    fieldConvOk pyInt (audioStream streams).sample_rate &&
    fieldConvOk pyInt (audioStream streams).channels &&
    fieldConvOk pyInt fmt.size
  | _ => true

theorem roundHalfEven_intCast (n : ℤ) : roundHalfEven (n : ℚ) = n := by
  unfold roundHalfEven
  norm_num

theorem ruleErrors_length_le_one (d : Option ℚ) : (ruleErrors d).length ≤ 1 := by
  cases d with
  | none => simp [ruleErrors]
  | some x =>
    simp only [ruleErrors]
    split
    · simp
    · split <;> simp

theorem ruleWarnings_length_le_one (b : Option ℤ) : (ruleWarnings b).length ≤ 1 := by
  cases b with
  | none => simp [ruleWarnings]
  | some x =>
    simp only [ruleWarnings]
    split <;> simp

theorem convField_ok {α : Type} (conv : PyVal → Option α) (v : Option PyVal)
    (msg : String) (h : fieldConvOk conv v = true) :
    ∃ a, convField conv v msg = Except.ok a := by
  cases v with
  | none => exact ⟨none, rfl⟩
  | some pv =>
    by_cases ht : truthyOpt (some pv) = true
    · simp only [fieldConvOk, ht, Bool.not_true, Bool.false_or] at h
      obtain ⟨a, ha⟩ := Option.isSome_iff_exists.mp h
      exact ⟨some a, by simp [convField, ht, ha]⟩
    · refine ⟨none, ?_⟩
      simp only [convField]
      rw [if_neg ht]

theorem extractMetrics_ok (fmt : FormatInfo) (streams : List StreamInfo)
    (h : probeWellFormed (ProbeOutcome.parsed fmt streams) = true) :
    ∃ m, extractMetrics fmt streams = Except.ok m := by
  simp only [probeWellFormed, Bool.and_eq_true] at h
  obtain ⟨⟨⟨⟨h1, h2⟩, h3⟩, h4⟩, h5⟩ := h
  obtain ⟨a1, e1⟩ := convField_ok pyFloat fmt.duration
    "ValueError: could not convert string to float" h1
  obtain ⟨a2, e2⟩ := convField_ok pyInt fmt.bit_rate
    "ValueError: invalid literal for int" h2
  obtain ⟨a3, e3⟩ := convField_ok pyInt (audioStream streams).sample_rate
    "ValueError: invalid literal for int" h3
  obtain ⟨a4, e4⟩ := convField_ok pyInt (audioStream streams).channels
    "ValueError: invalid literal for int" h4
  obtain ⟨a5, e5⟩ := convField_ok pyInt fmt.size
    "ValueError: invalid literal for int" h5
  refine ⟨{ duration_s := a1
            bitrate_kbps := a2.map fun n => Int.fdiv n 1000
            sample_rate_hz := a3
            channels := a4
            codec := (audioStream streams).codec_name
            file_size_bytes := a5 }, ?_⟩
  simp only [extractMetrics, e1, e2, e3, e4, e5, bind, Except.bind]

theorem verify_audio_parsed_ok (fmt : FormatInfo) (streams : List StreamInfo)
    (m : VerificationMetrics) (h : extractMetrics fmt streams = Except.ok m) :
    verify_audio (ProbeOutcome.parsed fmt streams) = Except.ok (evaluate m) := by
  simp [verify_audio, h]

theorem verify_audio_ok_shape (o : ProbeOutcome) (r : VerificationResult)
    (h : verify_audio o = Except.ok r) :
    (∃ msg, r = { status := VerificationStatus.failed, errors := [msg] }) ∨
    (∃ m, r = evaluate m) := by
  cases o with
  | fileNotFound p =>
    exact Or.inl ⟨_, (Except.ok.inj h).symm⟩
  | execFailed e =>
    exact Or.inl ⟨_, (Except.ok.inj h).symm⟩
  | nonZeroExit s =>
    exact Or.inl ⟨_, (Except.ok.inj h).symm⟩
  | invalidJson =>
    exact Or.inl ⟨_, (Except.ok.inj h).symm⟩
  | parsed fmt streams =>
    refine Or.inr ?_
    simp only [verify_audio] at h
    cases he : extractMetrics fmt streams with
    | error e => rw [he] at h; cases h
    | ok m => rw [he] at h; exact ⟨m, (Except.ok.inj h).symm⟩

/-- Claim C1: for every VerificationResult returned (normally) by
verify_audio, in every return branch, the verdict is exactly
determined by the final error and warning lists: errors non-empty ⇒
failed; else warnings non-empty ⇒ warning; else ok. -/
theorem C1_verdict_determined_by_lists (o : ProbeOutcome)
    (r : VerificationResult) (h : verify_audio o = Except.ok r) :
    (r.errors ≠ [] → r.status = VerificationStatus.failed) ∧
    (r.errors = [] → r.warnings ≠ [] → r.status = VerificationStatus.warning) ∧
    (r.errors = [] → r.warnings = [] → r.status = VerificationStatus.ok) := by
  rcases verify_audio_ok_shape o r h with ⟨msg, rfl⟩ | ⟨m, rfl⟩
  · exact ⟨fun _ => rfl, fun he => absurd he (by simp), fun he => absurd he (by simp)⟩
  · refine ⟨fun he => ?_, fun he hw => ?_, fun he hw => ?_⟩
    · have he2 : ¬(ruleErrors m.duration_s).isEmpty := by
        simpa [evaluate, List.isEmpty_iff] using he
      simp [evaluate, decideStatus, he2]
    · have he2 : (ruleErrors m.duration_s).isEmpty := by
        simpa [evaluate, List.isEmpty_iff] using he
      have hw2 : ¬(ruleWarnings m.bitrate_kbps).isEmpty := by
        simpa [evaluate, List.isEmpty_iff] using hw
      simp [evaluate, decideStatus, he2, hw2]
    · have he2 : (ruleErrors m.duration_s).isEmpty := by
        simpa [evaluate, List.isEmpty_iff] using he
      have hw2 : (ruleWarnings m.bitrate_kbps).isEmpty := by
        simpa [evaluate, List.isEmpty_iff] using hw
      simp [evaluate, decideStatus, he2, hw2]

/-- Witness for C1 at the concrete extraction-failure outcome of
unparsable probe JSON. -/
theorem C1_witness :
    ({ status := VerificationStatus.failed,
       errors := ["Invalid JSON returned from ffprobe"] } :
        VerificationResult).status = VerificationStatus.failed :=
  (C1_verdict_determined_by_lists ProbeOutcome.invalidJson
    { status := VerificationStatus.failed,
      errors := ["Invalid JSON returned from ffprobe"] } rfl).1 (by simp)

/-- Claim C2: on every extraction-failure branch (file missing, probe
process cannot run, probe exits non-zero, probe output unparsable)
verify_audio returns verdict failed, exactly one error string naming
the cause, no warnings, and default Metrics whose every field is
None. -/
theorem C2_extraction_failure_results :
    (∀ p, verify_audio (ProbeOutcome.fileNotFound p) =
      Except.ok { status := VerificationStatus.failed, metrics := {},
                  warnings := [], errors := ["File not found: " ++ p] }) ∧
    (∀ e, verify_audio (ProbeOutcome.execFailed e) =
      Except.ok { status := VerificationStatus.failed, metrics := {},
                  warnings := [],
                  errors := ["ffprobe execution failed: " ++ e] }) ∧
    (∀ s, verify_audio (ProbeOutcome.nonZeroExit s) =
      Except.ok { status := VerificationStatus.failed, metrics := {},
                  warnings := [],
                  errors := [if pyStrip s = "" then "ffprobe returned error"
                             else pyStrip s] }) ∧
    (verify_audio ProbeOutcome.invalidJson =
      Except.ok { status := VerificationStatus.failed, metrics := {},
                  warnings := [],
                  errors := ["Invalid JSON returned from ffprobe"] }) ∧
    ({} : VerificationMetrics).duration_s = none ∧
    ({} : VerificationMetrics).file_size_bytes = none ∧
    ({} : VerificationMetrics).bitrate_kbps = none ∧
    ({} : VerificationMetrics).sample_rate_hz = none ∧
    ({} : VerificationMetrics).channels = none ∧
    ({} : VerificationMetrics).codec = none :=
  ⟨fun _ => rfl, fun _ => rfl, fun _ => rfl, rfl, rfl, rfl, rfl, rfl, rfl, rfl⟩

/-- Claim C8: every VerificationResult returned (normally) by
verify_audio, in every branch, has at most one error string and at
most one warning string. -/
theorem C8_at_most_one_each (o : ProbeOutcome) (r : VerificationResult)
    (h : verify_audio o = Except.ok r) :
    r.errors.length ≤ 1 ∧ r.warnings.length ≤ 1 := by
  rcases verify_audio_ok_shape o r h with ⟨msg, rfl⟩ | ⟨m, rfl⟩
  · exact ⟨by simp, by simp⟩
  · exact ⟨by simpa [evaluate] using ruleErrors_length_le_one m.duration_s,
      by simpa [evaluate] using ruleWarnings_length_le_one m.bitrate_kbps⟩

/-- Witness for C8 at the concrete outcome of a probe run that exits
non-zero with blank stderr. -/
theorem C8_witness :
    ({ status := VerificationStatus.failed,
       errors := ["ffprobe returned error"] } :
        VerificationResult).errors.length ≤ 1 ∧
    ({ status := VerificationStatus.failed,
       errors := ["ffprobe returned error"] } :
        VerificationResult).warnings.length ≤ 1 :=
  C8_at_most_one_each (ProbeOutcome.nonZeroExit " ")
    { status := VerificationStatus.failed,
      errors := ["ffprobe returned error"] } (by rfl)

/-- Claim C3: for every Metrics whose duration is None or ≤ 0, rule
evaluation yields verdict failed with exactly the error "Invalid or
zero duration"; the bitrate rule is still evaluated independently, so
a present bitrate < 96 additionally puts the low-bitrate warning in
the warning list. -/
theorem C3_invalid_duration (m : VerificationMetrics)
    (h : m.duration_s = none ∨ ∃ d, m.duration_s = some d ∧ d ≤ 0) :
    (evaluate m).status = VerificationStatus.failed ∧
    (evaluate m).errors = ["Invalid or zero duration"] ∧
    ∀ b, m.bitrate_kbps = some b → b < 96 →
      (evaluate m).warnings =
        ["Low bitrate: " ++ toString b ++ " kbps < 96 kbps"] := by
  have herr : ruleErrors m.duration_s = ["Invalid or zero duration"] := by
    rcases h with h | ⟨d, hd, hle⟩
    · simp [ruleErrors, h]
    · rw [hd]; simp [ruleErrors, hle]
  refine ⟨?_, ?_, ?_⟩
  · simp [evaluate, decideStatus, herr]
  · simp [evaluate, herr]
  · intro b hb hlt
    simp [evaluate, ruleWarnings, hb, hlt]

/-- Witness for C3 at the concrete Metrics of scenario 4 of the spec:
duration 0 and bitrate 64. -/
theorem C3_witness :
    (evaluate { duration_s := some 0, bitrate_kbps := some 64 }).status =
      VerificationStatus.failed ∧
    (evaluate { duration_s := some 0, bitrate_kbps := some 64 }).errors =
      ["Invalid or zero duration"] ∧
    (evaluate { duration_s := some 0, bitrate_kbps := some 64 }).warnings =
      ["Low bitrate: " ++ toString (64 : ℤ) ++ " kbps < 96 kbps"] := by
  have h := C3_invalid_duration { duration_s := some 0, bitrate_kbps := some 64 }
    (Or.inr ⟨0, rfl, le_refl 0⟩)
  exact ⟨h.1, h.2.1, h.2.2 64 rfl (by norm_num)⟩

/-- Claim C4: for every Metrics with 0 < duration < 5, the error list
is exactly the too-short message carrying the duration formatted with
exactly two digits after the decimal point; and for any duration at
most one of the two duration errors fires. -/
theorem C4_short_duration (m : VerificationMetrics) (d : ℚ)
    (hd : m.duration_s = some d) (h0 : 0 < d) (h5 : d < 5) :
    (evaluate m).errors = ["Duration too short: " ++ fmt2 d ++ "s < 5.00s"] ∧
    (∃ pre post, fmt2 d = pre ++ "." ++ post ∧ post.length = 2) ∧
    ∀ dopt : Option ℚ, (ruleErrors dopt).length ≤ 1 := by
  refine ⟨?_, ?_, ruleErrors_length_le_one⟩
  · have hnle : ¬d ≤ 0 := not_le.mpr h0
    rw [show (evaluate m).errors = ruleErrors m.duration_s from rfl, hd]
    simp [ruleErrors, hnle, h5]
  · exact ⟨fmt2Pre d, twoDigits (fmt2Scaled d % 100), rfl, rfl⟩

/-- Witness for C4 at the concrete Metrics of scenario 2 of the spec:
duration 3.2 seconds, whose formatted message reads 3.20. -/
theorem C4_witness :
    (evaluate { duration_s := some (16 / 5 : ℚ) }).errors =
      ["Duration too short: " ++ fmt2 (16 / 5 : ℚ) ++ "s < 5.00s"] ∧
    fmt2 (16 / 5 : ℚ) = "3.20" := by
  have h := C4_short_duration { duration_s := some (16 / 5 : ℚ) } (16 / 5)
    rfl (by norm_num) (by norm_num)
  refine ⟨h.1, ?_⟩
  have habs : |(16 / 5 : ℚ)| * 100 = ((320 : ℤ) : ℚ) := by
    rw [abs_of_pos (by norm_num : (0 : ℚ) < 16 / 5)]
    norm_num
  have hsc : fmt2Scaled (16 / 5 : ℚ) = 320 := by
    unfold fmt2Scaled
    rw [habs, roundHalfEven_intCast]
    rfl
  have hneg : ¬(16 / 5 : ℚ) < 0 := by norm_num
  show fmt2 (16 / 5 : ℚ) = "3.20"
  unfold fmt2 fmt2Pre
  rw [hsc, if_neg hneg]
  rfl

/-- Claim C5: for every Metrics with duration ≥ 5 and bitrate None or
≥ 96, the result is verdict ok with empty warning and error lists. -/
theorem C5_ok_result (m : VerificationMetrics) (d : ℚ)
    (hd : m.duration_s = some d) (h5 : 5 ≤ d)
    (hb : m.bitrate_kbps = none ∨ ∃ b, m.bitrate_kbps = some b ∧ 96 ≤ b) :
    evaluate m = { status := VerificationStatus.ok, metrics := m,
                   warnings := [], errors := [] } := by
  have herr : ruleErrors m.duration_s = [] := by
    rw [hd]
    have h1 : ¬d ≤ 0 := by linarith
    have h2 : ¬d < 5 := not_lt.mpr h5
    simp [ruleErrors, h1, h2]
  have hw : ruleWarnings m.bitrate_kbps = [] := by
    rcases hb with hb | ⟨b, hb, hge⟩
    · simp [ruleWarnings, hb]
    · rw [hb]; simp [ruleWarnings, not_lt.mpr hge]
  simp [evaluate, decideStatus, herr, hw]

/-- Witness for C5 at the concrete Metrics of scenario 1 of the spec:
duration 180 s, bitrate 192, sample rate 44100, 2 channels, mp3. -/
theorem C5_witness :
    evaluate { duration_s := some 180, bitrate_kbps := some 192,
               sample_rate_hz := some 44100, channels := some 2,
               codec := some "mp3" } =
      { status := VerificationStatus.ok,
        metrics := { duration_s := some 180, bitrate_kbps := some 192,
                     sample_rate_hz := some 44100, channels := some 2,
                     codec := some "mp3" },
        warnings := [], errors := [] } :=
  C5_ok_result
    { duration_s := some 180, bitrate_kbps := some 192,
      sample_rate_hz := some 44100, channels := some 2,
      codec := some "mp3" } 180 rfl (by norm_num)
    (Or.inr ⟨192, rfl, by norm_num⟩)

/-- Claim C6: for every Metrics with duration ≥ 5 and a present
bitrate with 0 ≤ bitrate < 96, the result is verdict warning with an
empty error list and exactly the low-bitrate warning; so the bitrate
rule alone never yields verdict failed. -/
theorem C6_low_bitrate_warning (m : VerificationMetrics) (d : ℚ) (b : ℤ)
    (hd : m.duration_s = some d) (h5 : 5 ≤ d)
    (hb : m.bitrate_kbps = some b) (_hb0 : 0 ≤ b) (hb96 : b < 96) :
    (evaluate m).status = VerificationStatus.warning ∧
    (evaluate m).errors = [] ∧
    (evaluate m).warnings =
      ["Low bitrate: " ++ toString b ++ " kbps < 96 kbps"] := by
  have herr : ruleErrors m.duration_s = [] := by
    rw [hd]
    have h1 : ¬d ≤ 0 := by linarith
    have h2 : ¬d < 5 := not_lt.mpr h5
    simp [ruleErrors, h1, h2]
  have hw : ruleWarnings m.bitrate_kbps =
      ["Low bitrate: " ++ toString b ++ " kbps < 96 kbps"] := by
    rw [hb]; simp [ruleWarnings, hb96]
  exact ⟨by simp [evaluate, decideStatus, herr, hw],
    by simp [evaluate, herr], by simp [evaluate, hw]⟩

/-- Witness for C6 at the concrete Metrics of scenario 3 of the spec:
duration 200 s and bitrate 64. -/
theorem C6_witness :
    (evaluate { duration_s := some 200, bitrate_kbps := some 64 }).status =
      VerificationStatus.warning ∧
    (evaluate { duration_s := some 200, bitrate_kbps := some 64 }).errors = [] ∧
    (evaluate { duration_s := some 200, bitrate_kbps := some 64 }).warnings =
      ["Low bitrate: " ++ toString (64 : ℤ) ++ " kbps < 96 kbps"] :=
  C6_low_bitrate_warning { duration_s := some 200, bitrate_kbps := some 64 }
    200 64 rfl (by norm_num) rfl (by norm_num) (by norm_num)

/-- Claim C7 counterexample: a well-formed probe document whose
container duration is the present, truthy, non-numeric string "abc"
makes verify_audio raise (the uncaught ValueError from float()),
modelled as an `Except.error` rather than a normally returned
VerificationResult. -/
theorem C7_counterexample :
    verify_audio (ProbeOutcome.parsed
        { duration := some (PyVal.vStr "abc") } []) =
      Except.error "ValueError: could not convert string to float" := by
  rfl

/-- Claim C7 as amended: verify_audio returns a VerificationResult
normally (never an exceptional control-flow signal) on every
extraction-failure outcome and on every parsed probe document whose
present truthy metric fields all convert to the required numeric
type; a present truthy non-numeric field instead raises an uncaught
conversion exception. -/
theorem C7_no_exception_when_fields_convert (o : ProbeOutcome)
    (h : probeWellFormed o = true) :
    ∃ r, verify_audio o = Except.ok r := by
  cases o with
  | fileNotFound p => exact ⟨_, rfl⟩
  | execFailed e => exact ⟨_, rfl⟩
  | nonZeroExit s => exact ⟨_, rfl⟩
  | invalidJson => exact ⟨_, rfl⟩
  | parsed fmt streams =>
    obtain ⟨m, hm⟩ := extractMetrics_ok fmt streams h
    exact ⟨evaluate m, verify_audio_parsed_ok fmt streams m hm⟩

/-- Witness for the amended C7 at a concrete parsed probe document
whose duration string is numeric. -/
theorem C7_witness :
    ∃ r, verify_audio (ProbeOutcome.parsed
        { duration := some (PyVal.vStr "180.0") } []) = Except.ok r :=
  C7_no_exception_when_fields_convert
    (ProbeOutcome.parsed { duration := some (PyVal.vStr "180.0") } [])
    (by rfl)

/-- Claim C9: create_job is total over any list of URL strings — it
reports ok True with count the number of entries non-blank after
stripping, stores exactly the stripped non-blank URLs under the new
job id, and on an empty URL list the stored job has zero URLs, on
which process_job returns ok False with message "no urls in job". -/
theorem C9_create_job_empty_urls (store : JobStore) (job_id : String)
    (urls : List String) (download : Job → ProcessResult) :
    (create_job store job_id urls).2.ok = true ∧
    (create_job store job_id urls).2.count =
      (urls.filter fun u => pyStrip u ≠ "").length ∧
    storeGet (create_job store job_id urls).1 job_id =
      some { job_id := job_id, urls := cleanUrls urls } ∧
    (urls = [] →
      process_job (create_job store job_id urls).1 download job_id =
        { ok := false, message := "no urls in job", job_id := job_id }) := by
  refine ⟨rfl, ?_, ?_, ?_⟩
  · simp [create_job, cleanUrls]
  · simp [storeGet, create_job]
  · intro h
    subst h
    simp [process_job, create_job, storeGet, cleanUrls]

/-- Witness for C9: creating a job from the empty URL list and then
processing it yields the no-urls failure dict. -/
theorem C9_witness :
    process_job (create_job [] "job-1" []).1
      (fun j => { ok := true, message := "downloaded mp3 (minimal)",
                  job_id := j.job_id }) "job-1" =
      { ok := false, message := "no urls in job", job_id := "job-1" } :=
  (C9_create_job_empty_urls [] "job-1" []
    (fun j => { ok := true, message := "downloaded mp3 (minimal)",
                job_id := j.job_id })).2.2.2 rfl

/-- Claim C10: for the CLI verify command on an existing regular
file, the exit code is determined by the verdict and the strict flag
(ok exits 0; warning exits 2 non-strict and 1 strict; failed exits
1), and the reported ok field is true exactly when the verdict is ok,
or is warning with strict false. -/
theorem C10_cli_exit_code (vr : VerificationResult) (strict : Bool) :
    (cliVerify PathKind.file vr strict).exitCode =
      (match vr.status with
       | VerificationStatus.ok => 0
       | VerificationStatus.warning => if strict then 1 else 2
       | VerificationStatus.failed => 1) ∧
    ((cliVerify PathKind.file vr strict).ok = true ↔
      (vr.status = VerificationStatus.ok ∨
        (vr.status = VerificationStatus.warning ∧ strict = false))) := by
  rcases vr with ⟨st, m, w, e⟩
  cases st <;> cases strict <;>
    simp [cliVerify, cliVerifyResult, statusValue]

end Audioscribe
